import Mathlib

/-
Verification of the clientsecrets module (oauth2client/clientsecrets.py):
loading and validation of OAuth 2.0 client-secrets JSON documents.

The Python code is shallowly embedded: a parsed JSON document becomes the
inductive type `JVal`; Python exceptions become the `PyError` type, with
`Except PyError` as the result of each fallible operation.  External
effects (the `json` parser, the filesystem, the cache collaborator) are
passed in as explicit values: `json.load` is represented by its outcome,
the filesystem by a partial map from path to parse outcome, and the cache
by an association list.  File events (open/close) are recorded in a trace
so that resource-release claims can be stated.
-/

set_option autoImplicit false

namespace ClientSecrets

/-- A parsed JSON value, as produced by the Python json module. JSON
objects parsed by the json module have distinct keys (a repeated key keeps
only the last occurrence), so an object is embedded as an association
list, looked up by first occurrence, which agrees on such lists. -/
inductive JVal where
  | null
  | bool (b : Bool)
  | num (n : Int)
  | str (s : String)
  | arr (elts : List JVal)
  | obj (items : List (String × JVal))

/-- The Python exceptions the module can raise or propagate.
`invalidClientSecrets` embeds the InvalidClientSecretsError class defined
by the module; the others are built-in Python exceptions. `valueError` is
what json.load and json.loads raise on unparsable text. -/
inductive PyError where
  | invalidClientSecrets (msg : String)
  | attributeError (msg : String)
  | typeError (msg : String)
  | valueError (msg : String)
  | keyError (key : String)
  | ioError
  | stopIteration
  deriving Repr, DecidableEq

/-- True exactly when the error is the validation error class of the
module (InvalidClientSecretsError). -/
def PyError.isValidationError : PyError → Bool
  | .invalidClientSecrets _ => true
  | _ => false

/-- True exactly when the result is a failure with the validation error
class of the module. -/
def failsWithValidationError (r : Except PyError (String × JVal)) : Bool :=
  match r with
  | .error e => e.isValidationError
  | .ok _ => false

/-- Message of the malformed-document error: Invalid file format. -/
def invalidFormatMsg : String := "Invalid file format."

/-- Message of the unknown-client-type error. -/
def unknownTypeMsg (t : String) : String :=
  "Unknown client type: " ++ t ++ "."

/-- Message of the missing-required-property error; names the property
and the client type. -/
def missingPropMsg (p t : String) : String :=
  "Missing property \"" ++ p ++ "\" in a client type of \"" ++ t ++ "\"."

/-- Message of the placeholder-not-configured error; names the property. -/
def notConfiguredMsg (p : String) : String :=
  "Property \"" ++ p ++ "\" is not configured."

/-- Message of the file-not-found error; names the source. -/
def fileNotFoundMsg (n : String) : String :=
  "File not found: \"" ++ n ++ "\""

/-- Message of the AttributeError raised when keys is accessed on a
non-dict value (Python mentions the concrete type in the message; the
model uses one message for all non-dict values). -/
def noKeysAttrMsg : String := "object has no attribute keys"

/-- Message of the AttributeError raised when startswith is accessed on a
non-string value. -/
def noStartswithAttrMsg : String := "object has no attribute startswith"

/-- Message of the TypeError raised by len on a value with no length. -/
def noLenMsg : String := "object has no len"

/-- Message of the TypeError raised by the in operator on a
non-container. -/
def notIterableMsg : String := "argument is not iterable"

/-- Message of the TypeError raised by subscripting a non-dict with a
string key. -/
def badSubscriptMsg : String := "indices must be integers"

/-- Message of the AttributeError raised when iteritems is accessed on a
non-dict value. -/
def noIteritemsMsg : String := "object has no attribute iteritems"

/-- TYPE_WEB = web. -/
def TYPE_WEB : String := "web"

/-- TYPE_INSTALLED = installed. -/
def TYPE_INSTALLED : String := "installed"

/-- The per-type schema: the required field list and the list of fields
that must not hold a template placeholder (the string key of the Python
dict). -/
structure ClientSchema where
  required : List String
  string : List String

/-- The required list shared by both client types in VALID_CLIENT. -/
def requiredProps : List String :=
  ["client_id", "client_secret", "redirect_uris", "auth_uri", "token_uri"]

/-- The string list shared by both client types in VALID_CLIENT. -/
def stringProps : List String :=
  ["client_id", "client_secret"]

/-- VALID_CLIENT: the schema table mapping each supported client type to
its schema. -/
def VALID_CLIENT : List (String × ClientSchema) :=
  [(TYPE_WEB, ⟨requiredProps, stringProps⟩),
   (TYPE_INSTALLED, ⟨requiredProps, stringProps⟩)]

/-- Membership and subscript of VALID_CLIENT combined: the schema stored
under client type `t`, or none when `t not in VALID_CLIENT.keys()`. -/
def lookupSchema (t : String) : Option ClientSchema :=
  (VALID_CLIENT.find? (fun kv => kv.1 == t)).map (·.2)

/-- Key membership in a parsed JSON object (Python `k in somedict`). -/
def hasKey (items : List (String × JVal)) (k : String) : Bool :=
  items.any (fun kv => kv.1 == k)

/-- Subscript of a parsed JSON object (Python `somedict[k]`). -/
def lookupKey (items : List (String × JVal)) (k : String) : Option JVal :=
  (items.find? (fun kv => kv.1 == k)).map (·.2)

/-- Python str.startswith on the character sequences of the strings. -/
def strStartsWith (s pre : String) : Bool :=
  pre.data.isPrefixOf s.data

/-- Python substring membership `pat in s`; the empty pattern is a
substring of every string. -/
def strContains (s pat : String) : Bool :=
  if pat.isEmpty then true else 2 ≤ (s.splitOn pat).length

/-- Whether a JSON value equals the Python string `k` (Python equality
between a str and an arbitrary value). -/
def jvalEqStr (v : JVal) (k : String) : Bool :=
  match v with
  | .str s => s == k
  | _ => false

/-- Python `k in v` for a string `k` and a parsed JSON value `v`: key
membership for a dict, element membership for a list, substring test for
a string, TypeError otherwise. -/
def pyContains (v : JVal) (k : String) : Except PyError Bool :=
  match v with
  | .obj items => .ok (hasKey items k)
  | .arr elts => .ok (elts.any (fun e => jvalEqStr e k))
  | .str s => .ok (strContains s k)
  | _ => .error (.typeError notIterableMsg)

/-- Python `v[k]` for a string key `k`: dict subscript (KeyError when the
key is absent), TypeError on any other value. -/
def pySubscript (v : JVal) (k : String) : Except PyError JVal :=
  match v with
  | .obj items =>
    match lookupKey items k with
    | some x => .ok x
    | none => .error (.keyError k)
  | _ => .error (.typeError badSubscriptMsg)

/-- Python `v.startswith(pre)`: defined for strings, AttributeError on
any other value. -/
def pyStartswith (v : JVal) (pre : String) : Except PyError Bool :=
  match v with
  | .str s => .ok (strStartsWith s pre)
  | _ => .error (.attributeError noStartswithAttrMsg)

/-- The first loop of _validate_clientsecrets: for each property of the
required list in order, raise InvalidClientSecretsError naming the
property and the client type as soon as one is not in client_info. -/
def checkRequired (client_type : String) (props : List String)
    (client_info : JVal) : Except PyError Unit :=
  match props with
  | [] => .ok ()
  | p :: rest =>
    match pyContains client_info p with
    | .error e => .error e
    | .ok true => checkRequired client_type rest client_info
    | .ok false => .error (.invalidClientSecrets (missingPropMsg p client_type))

/-- The second loop of _validate_clientsecrets: for each property of the
string list in order, raise InvalidClientSecretsError naming the property
as soon as client_info[prop].startswith of two left brackets is true. -/
def checkStrings (props : List String) (client_info : JVal) :
    Except PyError Unit :=
  match props with
  | [] => .ok ()
  | p :: rest =>
    match pySubscript client_info p with
    | .error e => .error e
    | .ok v =>
      match pyStartswith v "[[" with
      | .error e => .error e
      | .ok true => .error (.invalidClientSecrets (notConfiguredMsg p))
      | .ok false => checkStrings rest client_info

/-- _validate_clientsecrets(obj).  Direct translation: `obj is None` and
`len(obj) != 1` raise the invalid-format error (len itself raises
TypeError on a number or boolean); `obj.keys()[0]` raises AttributeError
on a non-dict; a dict with exactly one item binds that key as client_type
and `obj[client_type]` as client_info; an unknown type, a missing
required property and a placeholder string raise the corresponding
InvalidClientSecretsError; otherwise the pair is returned. -/
def _validate_clientsecrets (obj : JVal) : Except PyError (String × JVal) :=
  match obj with
  | .null => .error (.invalidClientSecrets invalidFormatMsg)
  | .bool _ => .error (.typeError noLenMsg)
  | .num _ => .error (.typeError noLenMsg)
  | .str s =>
    if s.length ≠ 1 then .error (.invalidClientSecrets invalidFormatMsg)
    else .error (.attributeError noKeysAttrMsg)
  | .arr elts =>
    if elts.length ≠ 1 then .error (.invalidClientSecrets invalidFormatMsg)
    else .error (.attributeError noKeysAttrMsg)
  | .obj items =>
    match items with
    | [(client_type, client_info)] =>
      match lookupSchema client_type with
      | none => .error (.invalidClientSecrets (unknownTypeMsg client_type))
      | some schema =>
        match checkRequired client_type schema.required client_info with
        | .error e => .error e
        | .ok _ =>
          match checkStrings schema.string client_info with
          | .error e => .error e
          | .ok _ => .ok (client_type, client_info)
    | _ => .error (.invalidClientSecrets invalidFormatMsg)

/-- load(fp): `json.load(fp)` is embedded by its outcome on the given
stream (a parsed value, or the exception json raises); the outcome is
propagated as the code does — nothing is caught — then validated. -/
def load (parse_result : Except PyError JVal) : Except PyError (String × JVal) :=
  match parse_result with
  | .error e => .error e
  | .ok obj => _validate_clientsecrets obj

/-- loads(s): `json.loads(s)` embedded by its outcome, exactly as `load`. -/
def loads (parse_result : Except PyError JVal) : Except PyError (String × JVal) :=
  match parse_result with
  | .error e => .error e
  | .ok obj => _validate_clientsecrets obj

/-- The input of _loadfile and loadfile: either an already-open stream
(with its name attribute and the outcome json.load would produce on it),
or a path identifier. -/
inductive Source where
  | stream (nm : String) (content : Except PyError JVal)
  | path (p : String)

/-- The filesystem, embedded as a map from path to the outcome of opening
and json-loading the file: `none` means opening raises IOError (the file
does not exist); `some r` means the open succeeds and `r` is the outcome
of json.load on the opened file. -/
abbrev FileSystem := String → Option (Except PyError JVal)

/-- File events recorded by the loaders, so that resource handling (which
sources are opened and closed) can be stated. -/
inductive FileEvent where
  | openedPath (p : String)
  | closedStream (nm : String)
  | closedFile (p : String)
  deriving Repr, DecidableEq

/-- _get_name(filename_or_io): the name attribute of a stream, or the
path itself. -/
def _get_name : Source → String
  | .stream nm _ => nm
  | .path p => p

/-- The body of the try in _loadfile after fp is available: the json.load
outcome is validated on success; an IOError raised while reading is
caught by the `except IOError` clause and re-raised as the
file-not-found InvalidClientSecretsError naming the source; any other
exception (in particular the ValueError of a JSON parse failure)
propagates unchanged. -/
def json_load_validate (name : String) (content : Except PyError JVal) :
    Except PyError (String × JVal) :=
  match content with
  | .error PyError.ioError =>
    .error (.invalidClientSecrets (fileNotFoundMsg name))
  | .error e => .error e
  | .ok obj => _validate_clientsecrets obj

/-- _loadfile(filename_or_io), returning the result together with the
trace of file events.  A stream is used as fp directly and fp.close()
runs in the finally block whether json.load returns or raises, so the
close event is recorded on every exit path.  A path is opened first: when
the open raises IOError, the except clause raises the file-not-found
error and nothing was opened; otherwise the file is opened, json-loaded
and closed by the finally block. -/
def _loadfile (fs : FileSystem) (src : Source) :
    Except PyError (String × JVal) × List FileEvent :=
  match src with
  | .stream nm content =>
    (json_load_validate nm content, [FileEvent.closedStream nm])
  | .path p =>
    match fs p with
    | none => (.error (.invalidClientSecrets (fileNotFoundMsg p)), [])
    | some content =>
      (json_load_validate p content,
       [FileEvent.openedPath p, FileEvent.closedFile p])

/-- _SECRET_NAMESPACE, the namespace constant reserved for this module. -/
def _SECRET_NAMESPACE : String := "oauth2client:secrets#ns"

/-- The state of the external cache collaborator, embedded as an
association list from (key, namespace) pairs to stored values. -/
abbrev Cache := List ((String × String) × JVal)

/-- cache.get(key, namespace=ns): the stored value, or none (Python None)
when no entry exists. -/
def cacheGet (c : Cache) (key ns : String) : Option JVal :=
  (c.find? (fun e => e.1.1 == key && e.1.2 == ns)).map (·.2)

/-- cache.set(key, value, namespace=ns). -/
def cacheSet (c : Cache) (key ns : String) (v : JVal) : Cache :=
  ((key, ns), v) :: c

/-- obj.iteritems().next(): the first item of a dict, StopIteration on an
empty dict, AttributeError on a non-dict. -/
def iteritems_next : JVal → Except PyError (String × JVal)
  | .obj [] => .error .stopIteration
  | .obj ((k, v) :: _) => .ok (k, v)
  | _ => .error (.attributeError noIteritemsMsg)

/-- The part of loadfile after cache.get returned `got`: on None, call
_loadfile and on its success build obj as the one-item dict, hand it to
cache.set (second component) and return its single item; on any other
got value, return got.iteritems().next() without touching the source.
Returns (result, value passed to cache.set if any, file events). -/
def loadfile_onGet (fs : FileSystem) (src : Source) (got : Option JVal) :
    Except PyError (String × JVal) × Option JVal × List FileEvent :=
  match got with
  | none =>
    match _loadfile fs src with
    | (.ok ctci, evs) =>
      let stored := JVal.obj [ctci]
      (iteritems_next stored, some stored, evs)
    | (.error e, evs) => (.error e, none, evs)
  | some obj => (iteritems_next obj, none, [])

/-- loadfile(filename_or_io, cache) for a supplied cache: query the cache
under the derived key and the module namespace, run `loadfile_onGet` on
the answer, and apply the recorded cache.set call to the cache state.
Returns (result, new cache state, file events). -/
def loadfile_cached (fs : FileSystem) (src : Source) (cache : Cache) :
    Except PyError (String × JVal) × Cache × List FileEvent :=
  let key := _get_name src
  match loadfile_onGet fs src (cacheGet cache key _SECRET_NAMESPACE) with
  | (res, some v, evs) =>
    (res, cacheSet cache key _SECRET_NAMESPACE v, evs)
  | (res, none, evs) => (res, cache, evs)

/-- loadfile(filename_or_io, cache=None): without a cache, delegate to
_loadfile; with a cache, run the cache-backed algorithm. -/
def loadfile (fs : FileSystem) (src : Source) (cache : Option Cache) :
    Except PyError (String × JVal) × Option Cache × List FileEvent :=
  match cache with
  | none =>
    let r := _loadfile fs src
    (r.1, none, r.2)
  | some c =>
    let r := loadfile_cached fs src c
    (r.1, some r.2.1, r.2.2)

/-- The example document of the spec for the installed type: all required
fields present, no placeholder. -/
def exampleInstalledInfo : List (String × JVal) :=
  [("client_id", JVal.str "id1"),
   ("client_secret", JVal.str "s1"),
   ("redirect_uris", JVal.arr []),
   ("auth_uri", JVal.str "https://a"),
   ("token_uri", JVal.str "https://b")]

/-- The example document wrapped under its single installed key. -/
def exampleInstalledDoc : JVal :=
  JVal.obj [(TYPE_INSTALLED, JVal.obj exampleInstalledInfo)]

/-- The message json raises on unparsable text (Python 2 json). -/
def decodeErrMsg : String := "No JSON object could be decoded"

/-- A concrete filesystem: good.json parses to the example document,
bad.json holds unparsable text, io.json fails while being read, every
other path does not exist. -/
def exampleFS : FileSystem := fun p =>
  if p == "good.json" then some (Except.ok exampleInstalledDoc)
  else if p == "bad.json" then
    some (Except.error (PyError.valueError decodeErrMsg))
  else if p == "io.json" then some (Except.error PyError.ioError)
  else none

/-! Helper lemmas about the validator loops and the cache. -/

/-- When every required property is a key of the info object, the
required-property loop succeeds. -/
lemma checkRequired_all_present (t : String) (props : List String)
    (kvs : List (String × JVal)) (h : ∀ p ∈ props, hasKey kvs p = true) :
    checkRequired t props (JVal.obj kvs) = Except.ok () := by
  induction props with
  | nil => rfl
  | cons p rest ih =>
    have hp : hasKey kvs p = true := h p (List.mem_cons_self p rest)
    simp only [checkRequired, pyContains, hp]
    exact ih fun q hq => h q (List.mem_cons_of_mem p hq)

/-- The required-property loop raises the missing-property error for the
first property of the list that is not a key of the info object. -/
lemma checkRequired_first_missing (t p : String) (props : List String)
    (kvs : List (String × JVal))
    (hfind : props.find? (fun r => !(hasKey kvs r)) = some p) :
    checkRequired t props (JVal.obj kvs) =
      Except.error (PyError.invalidClientSecrets (missingPropMsg p t)) := by
  induction props with
  | nil => simp [List.find?] at hfind
  | cons q rest ih =>
    cases hq : hasKey kvs q with
    | true =>
      have hfind2 : rest.find? (fun r => !(hasKey kvs r)) = some p := by
        simpa [List.find?, hq] using hfind
      simp only [checkRequired, pyContains, hq]
      exact ih hfind2
    | false =>
      have : q = p := by simpa [List.find?, hq] using hfind
      subst this
      simp [checkRequired, pyContains, hq]

/-- The schema stored under web. -/
lemma lookupSchema_web :
    lookupSchema TYPE_WEB = some ⟨requiredProps, stringProps⟩ := rfl

/-- The schema stored under installed. -/
lemma lookupSchema_installed :
    lookupSchema TYPE_INSTALLED = some ⟨requiredProps, stringProps⟩ := rfl

/-- A key different from both client types is absent from the schema
table. -/
lemma lookupSchema_none (t : String) (h1 : t ≠ TYPE_WEB)
    (h2 : t ≠ TYPE_INSTALLED) : lookupSchema t = none := by
  have hw : (TYPE_WEB == t) = false := beq_eq_false_iff_ne.mpr (Ne.symm h1)
  have hi : (TYPE_INSTALLED == t) = false := beq_eq_false_iff_ne.mpr (Ne.symm h2)
  simp [lookupSchema, VALID_CLIENT, List.find?, hw, hi]

/-- Reading a key just stored by cache.set yields the stored value. -/
lemma cacheGet_cacheSet (cache : Cache) (key ns : String) (v : JVal) :
    cacheGet (cacheSet cache key ns v) key ns = some v := by
  simp [cacheGet, cacheSet, List.find?]

/-- On a cache miss followed by a successful load, loadfile returns the
loaded pair, stores the one-item dict under the derived key and the
module namespace, and performs the file events of _loadfile. -/
lemma loadfile_cached_miss (fs : FileSystem) (src : Source) (cache : Cache)
    (ct : String) (ci : JVal)
    (hmiss : cacheGet cache (_get_name src) _SECRET_NAMESPACE = none)
    (hload : (_loadfile fs src).1 = Except.ok (ct, ci)) :
    loadfile_cached fs src cache =
      (Except.ok (ct, ci),
       cacheSet cache (_get_name src) _SECRET_NAMESPACE (JVal.obj [(ct, ci)]),
       (_loadfile fs src).2) := by
  rcases hsplit : _loadfile fs src with ⟨res, evs⟩
  rw [hsplit] at hload
  simp only at hload
  subst hload
  simp [loadfile_cached, hmiss, loadfile_onGet, hsplit, iteritems_next]

/-- On a cache hit, loadfile returns the single item of the cached dict,
leaves the cache unchanged and performs no file event. -/
lemma loadfile_cached_hit (fs : FileSystem) (src : Source) (cache : Cache)
    (v : JVal)
    (hhit : cacheGet cache (_get_name src) _SECRET_NAMESPACE = some v) :
    loadfile_cached fs src cache = (iteritems_next v, cache, []) := by
  simp [loadfile_cached, hhit, loadfile_onGet]

/-! Claim theorems. -/

/-- Claim C1, counterexample: a one-element JSON array passes the length
test of _validate_clientsecrets and then crashes with AttributeError on
obj.keys(), which is not the validation error class, refuting the claim
that every non-object value fails with the MalformedDocument validation
error and never crashes. -/
theorem validate_len1_nonobject_cex :
    _validate_clientsecrets (JVal.arr [JVal.null]) =
      Except.error (PyError.attributeError noKeysAttrMsg) ∧
    failsWithValidationError (_validate_clientsecrets (JVal.arr [JVal.null])) =
      false :=
  ⟨rfl, rfl⟩

/-- Claim C1 (amended): for a parsed value that is null, or that is an
object, string or array whose length is not exactly one, the validator
fails with the MalformedDocument validation error (message Invalid file
format.).  The never-crashes part of the original claim does not hold:
a non-object value of length one crashes with AttributeError. -/
theorem validate_malformed_cases (obj : JVal)
    (h : obj = JVal.null
       ∨ (∃ kvs, obj = JVal.obj kvs ∧ kvs.length ≠ 1)
       ∨ (∃ s, obj = JVal.str s ∧ s.length ≠ 1)
       ∨ (∃ elts, obj = JVal.arr elts ∧ elts.length ≠ 1)) :
    _validate_clientsecrets obj =
      Except.error (PyError.invalidClientSecrets invalidFormatMsg) := by
  rcases h with rfl | ⟨kvs, rfl, hl⟩ | ⟨s, rfl, hl⟩ | ⟨elts, rfl, hl⟩
  · rfl
  · match kvs, hl with
    | [], _ => rfl
    | [kv], hl => exact absurd rfl hl
    | kv1 :: kv2 :: tl, _ => rfl
  · simp [_validate_clientsecrets, hl]
  · simp [_validate_clientsecrets, hl]

/-- Witness for C1 at the empty object, which has zero top-level keys. -/
theorem validate_malformed_cases_w :
    _validate_clientsecrets (JVal.obj []) =
      Except.error (PyError.invalidClientSecrets invalidFormatMsg) :=
  validate_malformed_cases (JVal.obj []) (Or.inr (Or.inl ⟨[], rfl, by decide⟩))

/-- Claim C2, counterexample: a JSON parse failure (the ValueError of
json.load) escapes load and _loadfile unchanged, and is not the
validation error class, refuting the claim that parse failures surface
as the malformed-document validation error. -/
theorem parse_error_escapes_cex :
    load (Except.error (PyError.valueError decodeErrMsg)) =
      Except.error (PyError.valueError decodeErrMsg) ∧
    failsWithValidationError
      (load (Except.error (PyError.valueError decodeErrMsg))) = false ∧
    (_loadfile exampleFS (Source.path "bad.json")).1 =
      Except.error (PyError.valueError decodeErrMsg) ∧
    failsWithValidationError
      (_loadfile exampleFS (Source.path "bad.json")).1 = false :=
  ⟨rfl, rfl, rfl, rfl⟩

/-- Claim C2 (amended): a JSON parse failure propagates out of load,
loads and _loadfile unchanged as the ValueError raised by the json
module; it is not converted to the validation error class (only IOError
is caught and wrapped by _loadfile). -/
theorem parse_errors_propagate_unwrapped (msg : String) (fs : FileSystem)
    (p nm : String)
    (hfs : fs p = some (Except.error (PyError.valueError msg))) :
    load (Except.error (PyError.valueError msg)) =
      Except.error (PyError.valueError msg) ∧
    loads (Except.error (PyError.valueError msg)) =
      Except.error (PyError.valueError msg) ∧
    (_loadfile fs (Source.path p)).1 =
      Except.error (PyError.valueError msg) ∧
    (_loadfile fs (Source.stream nm (Except.error (PyError.valueError msg)))).1 =
      Except.error (PyError.valueError msg) ∧
    PyError.isValidationError (PyError.valueError msg) = false := by
  refine ⟨rfl, rfl, ?_, rfl, rfl⟩
  simp [_loadfile, hfs, json_load_validate]

/-- Witness for C2 on the concrete filesystem: bad.json holds text the
json module cannot parse. -/
theorem parse_errors_propagate_unwrapped_w :
    load (Except.error (PyError.valueError decodeErrMsg)) =
      Except.error (PyError.valueError decodeErrMsg) ∧
    loads (Except.error (PyError.valueError decodeErrMsg)) =
      Except.error (PyError.valueError decodeErrMsg) ∧
    (_loadfile exampleFS (Source.path "bad.json")).1 =
      Except.error (PyError.valueError decodeErrMsg) ∧
    (_loadfile exampleFS
      (Source.stream "st" (Except.error (PyError.valueError decodeErrMsg)))).1 =
      Except.error (PyError.valueError decodeErrMsg) ∧
    PyError.isValidationError (PyError.valueError decodeErrMsg) = false :=
  parse_errors_propagate_unwrapped decodeErrMsg exampleFS "bad.json" "st" rfl

/-- Claim C3: a document with exactly one top-level key holding a
supported client type, whose info object has every required field, and
whose client_id and client_secret are strings not starting with the
placeholder marker, validates successfully and returns the type together
with the info object unchanged. -/
theorem validate_valid_document (t : String) (kvs : List (String × JVal))
    (sid ssec : String)
    (ht : t = TYPE_WEB ∨ t = TYPE_INSTALLED)
    (hreq : ∀ p ∈ requiredProps, hasKey kvs p = true)
    (hid : lookupKey kvs "client_id" = some (JVal.str sid))
    (hsec : lookupKey kvs "client_secret" = some (JVal.str ssec))
    (hid2 : strStartsWith sid "[[" = false)
    (hsec2 : strStartsWith ssec "[[" = false) :
    _validate_clientsecrets (JVal.obj [(t, JVal.obj kvs)]) =
      Except.ok (t, JVal.obj kvs) := by
  have hcr := checkRequired_all_present t requiredProps kvs hreq
  have hcs : checkStrings stringProps (JVal.obj kvs) = Except.ok () := by
    simp [checkStrings, stringProps, pySubscript, hid, hsec, pyStartswith,
      hid2, hsec2]
  rcases ht with rfl | rfl
  · simp [_validate_clientsecrets, lookupSchema_web, hcr, hcs]
  · simp [_validate_clientsecrets, lookupSchema_installed, hcr, hcs]

/-- Witness for C3 at the installed example document of the spec. -/
theorem validate_valid_document_w :
    _validate_clientsecrets
        (JVal.obj [(TYPE_INSTALLED, JVal.obj exampleInstalledInfo)]) =
      Except.ok (TYPE_INSTALLED, JVal.obj exampleInstalledInfo) :=
  validate_valid_document TYPE_INSTALLED exampleInstalledInfo "id1" "s1"
    (Or.inr rfl) (by decide) rfl rfl rfl rfl

/-- Claim C4: when the single top-level key is a supported client type
and at least one required field is absent from the info object (the
first absent one being p, as computed by the required-list scan), the
validator fails with the MissingField error naming p and the type,
whatever the other fields and their values are. -/
theorem validate_missing_required (t p : String) (kvs : List (String × JVal))
    (ht : t = TYPE_WEB ∨ t = TYPE_INSTALLED)
    (hfind : requiredProps.find? (fun r => !(hasKey kvs r)) = some p) :
    p ∈ requiredProps ∧ hasKey kvs p = false ∧
    _validate_clientsecrets (JVal.obj [(t, JVal.obj kvs)]) =
      Except.error (PyError.invalidClientSecrets (missingPropMsg p t)) := by
  refine ⟨List.mem_of_find?_eq_some hfind, ?_, ?_⟩
  · have := List.find?_some hfind
    simpa using this
  · have hcr := checkRequired_first_missing t p requiredProps kvs hfind
    rcases ht with rfl | rfl
    · simp [_validate_clientsecrets, lookupSchema_web, hcr]
    · simp [_validate_clientsecrets, lookupSchema_installed, hcr]

/-- Witness for C4 at a web document lacking token_uri. -/
theorem validate_missing_required_w :
    "token_uri" ∈ requiredProps ∧
    hasKey [("client_id", JVal.str "id1"), ("client_secret", JVal.str "s1"),
            ("redirect_uris", JVal.arr []), ("auth_uri", JVal.str "https://a")]
      "token_uri" = false ∧
    _validate_clientsecrets (JVal.obj [(TYPE_WEB, JVal.obj
        [("client_id", JVal.str "id1"), ("client_secret", JVal.str "s1"),
         ("redirect_uris", JVal.arr []), ("auth_uri", JVal.str "https://a")])]) =
      Except.error
        (PyError.invalidClientSecrets (missingPropMsg "token_uri" TYPE_WEB)) :=
  validate_missing_required TYPE_WEB "token_uri"
    [("client_id", JVal.str "id1"), ("client_secret", JVal.str "s1"),
     ("redirect_uris", JVal.arr []), ("auth_uri", JVal.str "https://a")]
    (Or.inl rfl) rfl

/-- Claim C5, counterexample: a web document with every required field
present whose client_secret is a placeholder string but whose client_id
is a number crashes with AttributeError on startswith instead of failing
with the PlaceholderNotConfigured validation error, refuting the claim
as stated. -/
theorem validate_placeholder_cex :
    _validate_clientsecrets (JVal.obj [(TYPE_WEB, JVal.obj
        [("client_id", JVal.num 5),
         ("client_secret", JVal.str "[[SECRET]]"),
         ("redirect_uris", JVal.arr []),
         ("auth_uri", JVal.str "https://x"),
         ("token_uri", JVal.str "https://y")])]) =
      Except.error (PyError.attributeError noStartswithAttrMsg) ∧
    failsWithValidationError
      (_validate_clientsecrets (JVal.obj [(TYPE_WEB, JVal.obj
        [("client_id", JVal.num 5),
         ("client_secret", JVal.str "[[SECRET]]"),
         ("redirect_uris", JVal.arr []),
         ("auth_uri", JVal.str "https://x"),
         ("token_uri", JVal.str "https://y")])])) = false :=
  ⟨rfl, rfl⟩

/-- Claim C5 (amended): for a single-key document of a supported type
with all required fields present, when the values of client_id and
client_secret are both strings and at least one of them starts with the
placeholder marker, the validator fails with the
PlaceholderNotConfigured error naming the first offending field in the
check order client_id, client_secret.  The both-strings condition is
necessary: with a non-string client_id the validator crashes instead. -/
theorem validate_placeholder_rejected (t : String)
    (kvs : List (String × JVal)) (sid ssec : String)
    (ht : t = TYPE_WEB ∨ t = TYPE_INSTALLED)
    (hreq : ∀ p ∈ requiredProps, hasKey kvs p = true)
    (hid : lookupKey kvs "client_id" = some (JVal.str sid))
    (hsec : lookupKey kvs "client_secret" = some (JVal.str ssec))
    (hph : strStartsWith sid "[[" = true ∨ strStartsWith ssec "[[" = true) :
    _validate_clientsecrets (JVal.obj [(t, JVal.obj kvs)]) =
      Except.error (PyError.invalidClientSecrets (notConfiguredMsg
        (if strStartsWith sid "[[" then "client_id" else "client_secret"))) := by
  have hcr := checkRequired_all_present t requiredProps kvs hreq
  have hcs : checkStrings stringProps (JVal.obj kvs) =
      Except.error (PyError.invalidClientSecrets (notConfiguredMsg
        (if strStartsWith sid "[[" then "client_id" else "client_secret"))) := by
    cases hb : strStartsWith sid "[[" with
    | true =>
      simp [checkStrings, stringProps, pySubscript, hid, pyStartswith, hb]
    | false =>
      have hb2 : strStartsWith ssec "[[" = true := by
        rcases hph with h | h
        · rw [hb] at h
          exact absurd h (by simp)
        · exact h
      simp [checkStrings, stringProps, pySubscript, hid, hsec, pyStartswith,
        hb, hb2]
  rcases ht with rfl | rfl
  · simp [_validate_clientsecrets, lookupSchema_web, hcr, hcs]
  · simp [_validate_clientsecrets, lookupSchema_installed, hcr, hcs]

/-- Witness for C5 at the web example of the spec, whose client_secret
still holds the template placeholder. -/
theorem validate_placeholder_rejected_w :
    _validate_clientsecrets (JVal.obj [(TYPE_WEB, JVal.obj
        [("client_id", JVal.str "abc"),
         ("client_secret", JVal.str "[[secret]]"),
         ("redirect_uris", JVal.arr []),
         ("auth_uri", JVal.str "https://x"),
         ("token_uri", JVal.str "https://y")])]) =
      Except.error (PyError.invalidClientSecrets (notConfiguredMsg
        (if strStartsWith "abc" "[[" then "client_id" else "client_secret"))) :=
  validate_placeholder_rejected TYPE_WEB
    [("client_id", JVal.str "abc"),
     ("client_secret", JVal.str "[[secret]]"),
     ("redirect_uris", JVal.arr []),
     ("auth_uri", JVal.str "https://x"),
     ("token_uri", JVal.str "https://y")] "abc" "[[secret]]"
    (Or.inl rfl) (by decide) rfl rfl (Or.inr rfl)

/-- Claim C6: a document that is an object with exactly one top-level
key that is neither web nor installed always fails with the
UnknownClientType error naming that key, whatever the associated value
is. -/
theorem validate_unknown_client_type (t : String) (v : JVal)
    (h1 : t ≠ TYPE_WEB) (h2 : t ≠ TYPE_INSTALLED) :
    _validate_clientsecrets (JVal.obj [(t, v)]) =
      Except.error (PyError.invalidClientSecrets (unknownTypeMsg t)) := by
  simp [_validate_clientsecrets, lookupSchema_none t h1 h2]

/-- Witness for C6 at the key other with a null value. -/
theorem validate_unknown_client_type_w :
    _validate_clientsecrets (JVal.obj [("other", JVal.null)]) =
      Except.error (PyError.invalidClientSecrets (unknownTypeMsg "other")) :=
  validate_unknown_client_type "other" JVal.null (by decide) (by decide)

/-- Claim C7: cache round-trip.  With a cache holding no entry for the
derived key, a first loadfile call that loads successfully returns the
validated pair and stores the one-item dict under the derived key and
the module namespace; a second loadfile call on the resulting cache with
a source of the same derived name — over any filesystem whatsoever —
returns the same pair, performs no file event (the source is not
re-opened), and leaves the cache unchanged, so no re-read and no
re-validation occurs. -/
theorem loadfile_cache_roundtrip (fs fs2 : FileSystem) (src src2 : Source)
    (cache : Cache) (client_type : String) (client_info : JVal)
    (hname : _get_name src2 = _get_name src)
    (hmiss : cacheGet cache (_get_name src) _SECRET_NAMESPACE = none)
    (hload : (_loadfile fs src).1 = Except.ok (client_type, client_info)) :
    (loadfile_cached fs src cache).1 = Except.ok (client_type, client_info) ∧
    (loadfile_cached fs src cache).2.1 =
      cacheSet cache (_get_name src) _SECRET_NAMESPACE
        (JVal.obj [(client_type, client_info)]) ∧
    (loadfile_cached fs2 src2 (loadfile_cached fs src cache).2.1).1 =
      Except.ok (client_type, client_info) ∧
    (loadfile_cached fs2 src2 (loadfile_cached fs src cache).2.1).2.2 = [] ∧
    (loadfile_cached fs2 src2 (loadfile_cached fs src cache).2.1).2.1 =
      (loadfile_cached fs src cache).2.1 := by
  have h1 := loadfile_cached_miss fs src cache client_type client_info
    hmiss hload
  have hhit : cacheGet (loadfile_cached fs src cache).2.1 (_get_name src2)
      _SECRET_NAMESPACE = some (JVal.obj [(client_type, client_info)]) := by
    rw [h1, hname]
    exact cacheGet_cacheSet cache (_get_name src) _SECRET_NAMESPACE
      (JVal.obj [(client_type, client_info)])
  have h2 := loadfile_cached_hit fs2 src2 (loadfile_cached fs src cache).2.1
    (JVal.obj [(client_type, client_info)]) hhit
  refine ⟨by rw [h1], by rw [h1], by rw [h2]; rfl, by rw [h2], by rw [h2]⟩

/-- Witness for C7: good.json loaded twice through an initially empty
cache. -/
theorem loadfile_cache_roundtrip_w :
    (loadfile_cached exampleFS (Source.path "good.json") []).1 =
      Except.ok (TYPE_INSTALLED, JVal.obj exampleInstalledInfo) ∧
    (loadfile_cached exampleFS (Source.path "good.json") []).2.1 =
      cacheSet [] (_get_name (Source.path "good.json")) _SECRET_NAMESPACE
        (JVal.obj [(TYPE_INSTALLED, JVal.obj exampleInstalledInfo)]) ∧
    (loadfile_cached exampleFS (Source.path "good.json")
        (loadfile_cached exampleFS (Source.path "good.json") []).2.1).1 =
      Except.ok (TYPE_INSTALLED, JVal.obj exampleInstalledInfo) ∧
    (loadfile_cached exampleFS (Source.path "good.json")
        (loadfile_cached exampleFS (Source.path "good.json") []).2.1).2.2 =
      [] ∧
    (loadfile_cached exampleFS (Source.path "good.json")
        (loadfile_cached exampleFS (Source.path "good.json") []).2.1).2.1 =
      (loadfile_cached exampleFS (Source.path "good.json") []).2.1 :=
  loadfile_cache_roundtrip exampleFS exampleFS (Source.path "good.json")
    (Source.path "good.json") [] TYPE_INSTALLED
    (JVal.obj exampleInstalledInfo) rfl rfl rfl

/-- Claim C8, counterexample: when the cache get answer is an empty
mapping rather than None, loadfile does not treat it as a miss: it
raises StopIteration from iteritems().next(), performs no file event
(the Loader is never called) and stores nothing, refuting the claim
that every empty get result leads to a load and never crashes. -/
theorem loadfile_empty_mapping_get_cex :
    loadfile_cached exampleFS (Source.path "good.json")
        [(("good.json", _SECRET_NAMESPACE), JVal.obj [])] =
      (Except.error PyError.stopIteration,
       [(("good.json", _SECRET_NAMESPACE), JVal.obj [])], []) :=
  rfl

/-- Claim C8 (amended): only a get answer of None is a cache miss.  On a
None answer, loadfile calls the Loader (performing exactly its file
events); on the Loader success it stores the one-item dict under the
same key and the module namespace and returns the validated pair.  A
get answer of an empty mapping is instead passed to iteritems().next()
and raises StopIteration without calling the Loader. -/
theorem loadfile_cache_miss_none (fs : FileSystem) (src : Source)
    (cache : Cache) (client_type : String) (client_info : JVal)
    (hget_none : cacheGet cache (_get_name src) _SECRET_NAMESPACE = none)
    (hload : (_loadfile fs src).1 = Except.ok (client_type, client_info)) :
    (loadfile_cached fs src cache).1 = Except.ok (client_type, client_info) ∧
    (loadfile_cached fs src cache).2.1 =
      cacheSet cache (_get_name src) _SECRET_NAMESPACE
        (JVal.obj [(client_type, client_info)]) ∧
    (loadfile_cached fs src cache).2.2 = (_loadfile fs src).2 := by
  have h1 := loadfile_cached_miss fs src cache client_type client_info
    hget_none hload
  exact ⟨by rw [h1], by rw [h1], by rw [h1]⟩

/-- Witness for C8: good.json loaded through an empty cache. -/
theorem loadfile_cache_miss_none_w :
    (loadfile_cached exampleFS (Source.path "good.json") []).1 =
      Except.ok (TYPE_INSTALLED, JVal.obj exampleInstalledInfo) ∧
    (loadfile_cached exampleFS (Source.path "good.json") []).2.1 =
      cacheSet [] (_get_name (Source.path "good.json")) _SECRET_NAMESPACE
        (JVal.obj [(TYPE_INSTALLED, JVal.obj exampleInstalledInfo)]) ∧
    (loadfile_cached exampleFS (Source.path "good.json") []).2.2 =
      (_loadfile exampleFS (Source.path "good.json")).2 :=
  loadfile_cache_miss_none exampleFS (Source.path "good.json") []
    TYPE_INSTALLED (JVal.obj exampleInstalledInfo) rfl rfl

/-- Claim C9: loading from a path whose open raises IOError, or whose
read raises IOError, fails with the FileNotFound validation error
naming the path; loading the same valid JSON content from an open
stream succeeds. -/
theorem loadfile_filenotfound_and_stream (fs : FileSystem)
    (p p2 nm : String) (obj : JVal) (r : String × JVal)
    (hfs : fs p = none)
    (hfs2 : fs p2 = some (Except.error PyError.ioError))
    (hv : _validate_clientsecrets obj = Except.ok r) :
    (_loadfile fs (Source.path p)).1 =
      Except.error (PyError.invalidClientSecrets (fileNotFoundMsg p)) ∧
    (_loadfile fs (Source.path p2)).1 =
      Except.error (PyError.invalidClientSecrets (fileNotFoundMsg p2)) ∧
    (_loadfile fs (Source.stream nm (Except.ok obj))).1 = Except.ok r := by
  refine ⟨?_, ?_, ?_⟩
  · simp [_loadfile, hfs]
  · simp [_loadfile, hfs2, json_load_validate]
  · simp [_loadfile, json_load_validate, hv]

/-- Witness for C9 on the concrete filesystem: missing.json does not
exist, io.json fails while being read, and a stream holding the
installed example document loads successfully. -/
theorem loadfile_filenotfound_and_stream_w :
    (_loadfile exampleFS (Source.path "missing.json")).1 =
      Except.error
        (PyError.invalidClientSecrets (fileNotFoundMsg "missing.json")) ∧
    (_loadfile exampleFS (Source.path "io.json")).1 =
      Except.error (PyError.invalidClientSecrets (fileNotFoundMsg "io.json")) ∧
    (_loadfile exampleFS
        (Source.stream "st" (Except.ok exampleInstalledDoc))).1 =
      Except.ok (TYPE_INSTALLED, JVal.obj exampleInstalledInfo) :=
  loadfile_filenotfound_and_stream exampleFS "missing.json" "io.json" "st"
    exampleInstalledDoc (TYPE_INSTALLED, JVal.obj exampleInstalledInfo)
    rfl rfl rfl

/-- Claim C10: a stream handed to _loadfile — directly, through loadfile
without a cache, or through loadfile on a cache miss — is closed before
the call returns on every exit path: the close event is recorded
whatever the json.load outcome is (success, parse failure), and a
validation failure happens only after the finally block already closed
the stream. -/
theorem loadfile_stream_always_closed (fs : FileSystem) (nm : String)
    (content : Except PyError JVal) (cache : Cache)
    (hmiss : cacheGet cache nm _SECRET_NAMESPACE = none) :
    (_loadfile fs (Source.stream nm content)).2 =
      [FileEvent.closedStream nm] ∧
    (loadfile fs (Source.stream nm content) none).2.2 =
      [FileEvent.closedStream nm] ∧
    (loadfile_cached fs (Source.stream nm content) cache).2.2 =
      [FileEvent.closedStream nm] := by
  refine ⟨rfl, rfl, ?_⟩
  have hmiss2 : cacheGet cache (_get_name (Source.stream nm content))
      _SECRET_NAMESPACE = none := hmiss
  cases hres : json_load_validate nm content with
  | ok ctci =>
    simp [loadfile_cached, hmiss2, loadfile_onGet, _loadfile, hres]
  | error e =>
    simp [loadfile_cached, hmiss2, loadfile_onGet, _loadfile, hres]

/-- Witness for C10 at a stream holding a null document (whose
validation fails) and an empty cache: the stream is still closed. -/
theorem loadfile_stream_always_closed_w :
    (_loadfile exampleFS (Source.stream "st2" (Except.ok JVal.null))).2 =
      [FileEvent.closedStream "st2"] ∧
    (loadfile exampleFS (Source.stream "st2" (Except.ok JVal.null)) none).2.2 =
      [FileEvent.closedStream "st2"] ∧
    (loadfile_cached exampleFS (Source.stream "st2" (Except.ok JVal.null))
        []).2.2 = [FileEvent.closedStream "st2"] :=
  loadfile_stream_always_closed exampleFS "st2" (Except.ok JVal.null) [] rfl

end ClientSecrets
